import Mathlib

/-!
Verification of the conversion/quantization pipeline in
`tools/fine_tuning_vibe_coded/convert_to_ggml.py`.

The Python script is embedded shallowly: filesystem and subprocess effects
are represented by explicit environment records (what exists on disk, what
exit status each external tool returns), and each Python function becomes a
Lean function from such an environment to a result record that captures both
the returned/raised value and the externally visible side effects the claims
talk about (which files were written, which subprocesses were invoked).
-/

namespace ConvertToGgml

/-- The Hugging Face Whisper configuration record, restricted to the nine
attributes `convert_hf_to_ggml` reads (`d_model` is read for both
`n_audio_state` and `n_text_state`).  Each attribute is `Option Int`:
`none` models the attribute being absent from the configuration, in which
case the Python attribute access raises `AttributeError`. -/
structure WhisperConfig where
  num_mel_bins : Option Int
  max_source_positions : Option Int
  d_model : Option Int
  encoder_attention_heads : Option Int
  encoder_layers : Option Int
  vocab_size : Option Int
  max_target_positions : Option Int
  decoder_attention_heads : Option Int
  decoder_layers : Option Int
  deriving Repr, DecidableEq

/-- The `dims` dictionary literal of `convert_hf_to_ggml` (lines 147-158),
as an association list in the insertion order of the Python dict.  The
result is `none` when any of the accessed configuration attributes is
absent (the dict literal raises `AttributeError` before the checkpoint is
saved); no other validation is performed by the code. -/
def buildDims (cfg : WhisperConfig) : Option (List (String × Int)) :=
  match cfg.num_mel_bins, cfg.max_source_positions, cfg.d_model,
        cfg.encoder_attention_heads, cfg.encoder_layers, cfg.vocab_size,
        cfg.max_target_positions, cfg.decoder_attention_heads,
        cfg.decoder_layers with
  | some nm, some msp, some dm, some eah, some el, some vs, some mtp,
    some dah, some dl =>
      some [("n_mels", nm), ("n_audio_ctx", msp), ("n_audio_state", dm),
            ("n_audio_head", eah), ("n_audio_layer", el), ("n_vocab", vs),
            ("n_text_ctx", mtp), ("n_text_state", dm), ("n_text_head", dah),
            ("n_text_layer", dl)]
  | _, _, _, _, _, _, _, _, _ => none

/-- `pathlib.Path.suffix` for a file name: the final dot-separated
extension including the dot, empty when the name has no dot or only a
leading dot. -/
def pySuffix (name : String) : String :=
  let cs := name.data
  match (List.range cs.length).filter (fun i => cs.getD i ' ' = '.') |>.getLast? with
  | none => ""
  | some 0 => ""
  | some i => ⟨cs.drop i⟩

/-- Python's substring containment `needle in hay` on character lists. -/
def charsContain (needle : List Char) : List Char → Bool
  | [] => needle.isPrefixOf []
  | c :: t => needle.isPrefixOf (c :: t) || charsContain needle t

/-- The artifact-discovery predicate of `convert_hf_to_ggml` (line 204):
`file.suffix in ['.bin', '.ggml'] and 'ggml' in file.name`. -/
def isGgmlCandidate (name : String) : Bool :=
  (pySuffix name = ".bin" || pySuffix name = ".ggml")
    && charsContain "ggml".data name.data

/-- The distinct raise sites inside `convert_hf_to_ggml`.  In the Python
source each of these is re-raised by the outer handler as
`RuntimeError("Failed to convert model to GGML format")`; the constructors
record which interior site fired. -/
inductive ConvertError where
  /-- Loading the model or reading a configuration attribute failed
  (e.g. `AttributeError` from a missing dimension attribute). -/
  | invalidCheckpoint : ConvertError
  /-- `models/convert-pt-to-ggml.py` does not exist (line 177). -/
  | scriptMissing : ConvertError
  /-- The converter subprocess exited non-zero (line 193); carries the
  captured stdout and stderr (lines 195-196). -/
  | conversionFailed (stdout stderr : String) : ConvertError
  /-- No file matching the discovery predicate was found (line 215). -/
  | outputMissing : ConvertError
  deriving Repr, DecidableEq

/-- Environment of one `convert_hf_to_ggml` run: the model configuration,
whether the model loads at all, whether the conversion script is present,
the converter subprocess outcome, and the listing of the output directory
(in iteration order) at discovery time. -/
structure ConvertEnv where
  cfg : WhisperConfig
  modelLoadOk : Bool
  scriptExists : Bool
  converterExit : Int
  converterStdout : String
  converterStderr : String
  outputDirListing : List String
  deriving Repr, DecidableEq

/-- Result of one `convert_hf_to_ggml` run.  `intermediateWritten` records
whether `torch.save(checkpoint, compatible_pt)` executed (line 172);
`intermediateOnDisk` whether `whisper_compatible.pt` still exists when the
function returns (it is unlinked only on the success path, line 218).
`renamed` records the discover-and-rename step: `some (src, dst)` when the
selected candidate was renamed (line 212), `none` otherwise. -/
structure ConvertResult where
  outcome : Except ConvertError String
  dimsBuilt : Option (List (String × Int))
  intermediateWritten : Bool
  intermediateOnDisk : Bool
  renamed : Option (String × String)
  deriving Repr

/-- Shallow embedding of `convert_hf_to_ggml` (lines 130-225).
`outputName` is the caller-specified canonical output file name
(`whisper-atc.bin` when invoked from `main`). -/
def convert_hf_to_ggml (env : ConvertEnv) (outputName : String) : ConvertResult :=
  if !env.modelLoadOk then
    { outcome := .error .invalidCheckpoint, dimsBuilt := none,
      intermediateWritten := false, intermediateOnDisk := false,
      renamed := none }
  else
    match buildDims env.cfg with
    | none =>
        { outcome := .error .invalidCheckpoint, dimsBuilt := none,
          intermediateWritten := false, intermediateOnDisk := false,
          renamed := none }
    | some dims =>
        -- torch.save(checkpoint, compatible_pt): the intermediate
        -- checkpoint now exists in the output directory.
        if !env.scriptExists then
          { outcome := .error .scriptMissing, dimsBuilt := some dims,
            intermediateWritten := true, intermediateOnDisk := true,
            renamed := none }
        else if env.converterExit ≠ 0 then
          { outcome := .error (.conversionFailed env.converterStdout
              env.converterStderr),
            dimsBuilt := some dims,
            intermediateWritten := true, intermediateOnDisk := true,
            renamed := none }
        else
          match env.outputDirListing.filter isGgmlCandidate with
          | [] =>
              { outcome := .error .outputMissing, dimsBuilt := some dims,
                intermediateWritten := true, intermediateOnDisk := true,
                renamed := none }
          | f :: _ =>
              { outcome := .ok outputName, dimsBuilt := some dims,
                intermediateWritten := true, intermediateOnDisk := false,
                renamed := if f ≠ outputName then some (f, outputName)
                           else none }

/-- The three fixed quantization levels, in the order the loop attempts
them (lines 234-238). -/
def quantLevels : List String := ["q8_0", "q5_0", "q4_0"]

/-- The per-level output file name, `f"whisper-atc-{quant_type}.bin"`
(line 243). -/
def quantOutputName (qt : String) : String := "whisper-atc-" ++ qt ++ ".bin"

/-- A successful quantization entry: output path and its measured
`stat().st_size` in bytes (the code converts it to mebibytes for the
report; the measured quantity is the byte size). -/
structure QArtifact where
  path : String
  sizeBytes : Nat
  deriving Repr, DecidableEq

/-- Environment of one `quantize_model` run: whether the quantize binary
exists inside the toolchain build, and for each level the exit status of
its subprocess and the size of the file it produced. -/
structure QuantEnv where
  quantizeBinaryExists : Bool
  exitCode : String → Int
  sizeBytes : String → Nat

inductive QuantError where
  /-- `Quantize binary not found` (line 232). -/
  | quantizerMissing : QuantError
  deriving Repr, DecidableEq

/-- Result of one `quantize_model` run.  `attempted` lists the levels for
which the quantizer subprocess was invoked, in order. -/
structure QuantResult where
  outcome : Except QuantError (List (String × QArtifact))
  attempted : List String

/-- Shallow embedding of `quantize_model` (lines 227-264): the missing
binary check aborts before the loop; otherwise each level is attempted in
order, successes are inserted into the results mapping and failures are
only logged. -/
def quantize_model (env : QuantEnv) : QuantResult :=
  if !env.quantizeBinaryExists then
    { outcome := .error .quantizerMissing, attempted := [] }
  else
    { outcome := .ok (quantLevels.foldl
        (fun acc qt =>
          if env.exitCode qt = 0 then
            acc ++ [(qt, { path := quantOutputName qt,
                           sizeBytes := env.sizeBytes qt })]
          else acc) []),
      attempted := quantLevels }

/-- Environment of one `main` run (lines 266-328). -/
structure MainEnv where
  modelPathExists : Bool
  provisionOk : Bool
  skipQuantization : Bool
  convertEnv : ConvertEnv
  quantEnv : QuantEnv

/-- Observable outcome of one `main` run.  `outputDirCreated` records that
`output_dir.mkdir(parents=True, exist_ok=True)` executed (line 281);
the `*Attempted` flags record which pipeline stages were entered.
`main` never calls `sys.exit` and catches every `RuntimeError` its stages
raise, so the process exit status is 0 and no exception escapes. -/
structure MainResult where
  outputDirCreated : Bool
  reportedMissingModel : Bool
  provisionAttempted : Bool
  convertAttempted : Bool
  quantizeAttempted : Bool
  exitCode : Nat
  raised : Bool
  deriving Repr, DecidableEq

/-- Shallow embedding of `main` (lines 266-328).  The output directory is
created unconditionally before the checkpoint-path existence check; a
missing checkpoint path, a provisioning failure, or a conversion failure
each end the run with a plain `return`. -/
def main (env : MainEnv) : MainResult :=
  -- output_dir.mkdir(parents=True, exist_ok=True)
  if !env.modelPathExists then
    { outputDirCreated := true, reportedMissingModel := true,
      provisionAttempted := false, convertAttempted := false,
      quantizeAttempted := false, exitCode := 0, raised := false }
  else if !env.provisionOk then
    { outputDirCreated := true, reportedMissingModel := false,
      provisionAttempted := true, convertAttempted := false,
      quantizeAttempted := false, exitCode := 0, raised := false }
  else
    match (convert_hf_to_ggml env.convertEnv "whisper-atc.bin").outcome with
    | .error _ =>
        { outputDirCreated := true, reportedMissingModel := false,
          provisionAttempted := true, convertAttempted := true,
          quantizeAttempted := false, exitCode := 0, raised := false }
    | .ok _ =>
        { outputDirCreated := true, reportedMissingModel := false,
          provisionAttempted := true, convertAttempted := true,
          quantizeAttempted := !env.skipQuantization, exitCode := 0,
          raised := false }

/-- Every file name the pipeline itself places in the output directory as
a deliverable: the canonical converted binary (`main`, line 296) and the
three quantized outputs (`quantize_model`, line 243). -/
def pipelineArtifactNames : List String :=
  "whisper-atc.bin" :: quantLevels.map quantOutputName

/-- A configuration with all nine attributes present and positive
(the values of the whisper-small architecture). -/
def cfgGood : WhisperConfig :=
  { num_mel_bins := some 80, max_source_positions := some 1500,
    d_model := some 384, encoder_attention_heads := some 6,
    encoder_layers := some 4, vocab_size := some 51864,
    max_target_positions := some 448, decoder_attention_heads := some 6,
    decoder_layers := some 4 }

/-- The dimension manifest `buildDims` produces from `cfgGood`. -/
def dimsGood : List (String × Int) :=
  [("n_mels", 80), ("n_audio_ctx", 1500), ("n_audio_state", 384),
   ("n_audio_head", 6), ("n_audio_layer", 4), ("n_vocab", 51864),
   ("n_text_ctx", 448), ("n_text_state", 384), ("n_text_head", 6),
   ("n_text_layer", 4)]

/-- A conversion environment in which everything succeeds: the converter
leaves `ggml-model.bin` next to the intermediate checkpoint. -/
def convertEnvGood : ConvertEnv :=
  { cfg := cfgGood, modelLoadOk := true, scriptExists := true,
    converterExit := 0, converterStdout := "", converterStderr := "",
    outputDirListing := ["whisper_compatible.pt", "ggml-model.bin"] }

/-
Helper lemmas about `buildDims` and `convert_hf_to_ggml`.
-/

/-- `buildDims` fails exactly when one of the nine configuration
attributes is absent: no other validation happens. -/
theorem buildDims_eq_none_iff (cfg : WhisperConfig) :
    buildDims cfg = none ↔
      cfg.num_mel_bins = none ∨ cfg.max_source_positions = none ∨
      cfg.d_model = none ∨ cfg.encoder_attention_heads = none ∨
      cfg.encoder_layers = none ∨ cfg.vocab_size = none ∨
      cfg.max_target_positions = none ∨
      cfg.decoder_attention_heads = none ∨
      cfg.decoder_layers = none := by
  rcases cfg with ⟨a, b, c, d, e, f, g, h, i⟩
  cases a <;> cases b <;> cases c <;> cases d <;> cases e <;> cases f <;>
    cases g <;> cases h <;> cases i <;> simp [buildDims]

/-- Whenever `convert_hf_to_ggml` records a built dimension manifest, it
is the one `buildDims` computes from the configuration. -/
theorem dimsBuilt_sound (env : ConvertEnv) (out : String)
    (d : List (String × Int))
    (h : (convert_hf_to_ggml env out).dimsBuilt = some d) :
    buildDims env.cfg = some d := by
  unfold convert_hf_to_ggml at h
  split at h
  · simp at h
  · split at h
    · simp at h
    · split at h
      · simp_all
      · split at h
        · simp_all
        · split at h <;> simp_all

/-
C1.  The claim asserts that a zero or negative dimension value makes
`adapt` fail with no intermediate checkpoint written.  The code performs
no such validation: the `dims` dict is built from whatever integers the
configuration holds and the checkpoint is saved regardless; only an
absent attribute aborts (via `AttributeError`) before the save.
-/

/-- A conversion environment whose configuration has `num_mel_bins = 0`;
everything else succeeds. -/
def envC1zero : ConvertEnv :=
  { convertEnvGood with cfg := { cfgGood with num_mel_bins := some 0 } }

/-- C1 counterexample: with `num_mel_bins = 0` the conversion does not
fail — the intermediate checkpoint is written, the manifest carries the
zero, and the run returns the converted binary. -/
theorem C1_counterexample :
    envC1zero.cfg.num_mel_bins = some 0 ∧
    (convert_hf_to_ggml envC1zero "whisper-atc.bin").intermediateWritten
      = true ∧
    (convert_hf_to_ggml envC1zero "whisper-atc.bin").outcome
      = .ok "whisper-atc.bin" ∧
    (convert_hf_to_ggml envC1zero "whisper-atc.bin").dimsBuilt
      = some [("n_mels", 0), ("n_audio_ctx", 1500), ("n_audio_state", 384),
              ("n_audio_head", 6), ("n_audio_layer", 4), ("n_vocab", 51864),
              ("n_text_ctx", 448), ("n_text_state", 384), ("n_text_head", 6),
              ("n_text_layer", 4)] :=
  ⟨rfl, rfl, rfl, rfl⟩

/-- C1 (amended): when any of the configuration's dimension attributes is
missing, the conversion fails before the intermediate checkpoint is
written, so none is produced; zero or negative values are not validated
and do not cause a failure. -/
theorem C1_missing_dim_fails (env : ConvertEnv) (out : String)
    (h : env.cfg.num_mel_bins = none ∨ env.cfg.max_source_positions = none ∨
      env.cfg.d_model = none ∨ env.cfg.encoder_attention_heads = none ∨
      env.cfg.encoder_layers = none ∨ env.cfg.vocab_size = none ∨
      env.cfg.max_target_positions = none ∨
      env.cfg.decoder_attention_heads = none ∨
      env.cfg.decoder_layers = none) :
    (convert_hf_to_ggml env out).outcome = .error .invalidCheckpoint ∧
    (convert_hf_to_ggml env out).intermediateWritten = false ∧
    (convert_hf_to_ggml env out).intermediateOnDisk = false := by
  have hd : buildDims env.cfg = none := (buildDims_eq_none_iff env.cfg).mpr h
  unfold convert_hf_to_ggml
  rw [hd]
  cases env.modelLoadOk <;> simp

/-- An environment whose configuration lacks `num_mel_bins` entirely. -/
def envC1missing : ConvertEnv :=
  { convertEnvGood with cfg := { cfgGood with num_mel_bins := none } }

/-- C1 witness: the amended theorem applied to a configuration with
`num_mel_bins` absent. -/
theorem C1_missing_dim_fails_witness :
    envC1missing.cfg.num_mel_bins = none ∧
    ((convert_hf_to_ggml envC1missing "whisper-atc.bin").outcome
        = .error .invalidCheckpoint ∧
     (convert_hf_to_ggml envC1missing "whisper-atc.bin").intermediateWritten
        = false ∧
     (convert_hf_to_ggml envC1missing "whisper-atc.bin").intermediateOnDisk
        = false) :=
  ⟨rfl, C1_missing_dim_fails envC1missing "whisper-atc.bin" (Or.inl rfl)⟩

/-
C2.  The claim asserts that a non-zero converter exit leaves no
intermediate checkpoint on disk.  The code deletes
`whisper_compatible.pt` only on the success path (line 218): on failure
the file remains.
-/

/-- A conversion environment whose converter subprocess exits 1. -/
def envC2fail : ConvertEnv :=
  { convertEnvGood with
    converterExit := 1
    converterStdout := "partial output"
    converterStderr := "boom" }

/-- C2 counterexample: when the converter exits non-zero, the error does
carry the captured stdout and stderr, but the intermediate checkpoint is
still on disk when `convert_hf_to_ggml` raises. -/
theorem C2_counterexample :
    envC2fail.converterExit = 1 ∧
    (convert_hf_to_ggml envC2fail "whisper-atc.bin").outcome
      = .error (.conversionFailed "partial output" "boom") ∧
    (convert_hf_to_ggml envC2fail "whisper-atc.bin").intermediateOnDisk
      = true :=
  ⟨rfl, rfl, rfl⟩

/-- C2 (amended): when the converter subprocess exits non-zero, `convert`
fails with the conversion error carrying the captured stdout and stderr,
and the IntermediateCheckpoint file remains on disk — it is deleted only
on the success path. -/
theorem C2_conversion_failure (env : ConvertEnv) (out : String)
    (d : List (String × Int))
    (hload : env.modelLoadOk = true)
    (hdims : buildDims env.cfg = some d)
    (hscript : env.scriptExists = true)
    (hexit : env.converterExit ≠ 0) :
    (convert_hf_to_ggml env out).outcome
      = .error (.conversionFailed env.converterStdout env.converterStderr) ∧
    (convert_hf_to_ggml env out).intermediateWritten = true ∧
    (convert_hf_to_ggml env out).intermediateOnDisk = true := by
  simp [convert_hf_to_ggml, hload, hdims, hscript, hexit]

/-- C2 witness: the amended theorem applied to `envC2fail`. -/
theorem C2_conversion_failure_witness :
    envC2fail.modelLoadOk = true ∧
    buildDims envC2fail.cfg = some dimsGood ∧
    envC2fail.scriptExists = true ∧
    envC2fail.converterExit ≠ 0 ∧
    ((convert_hf_to_ggml envC2fail "whisper-atc.bin").outcome
        = .error (.conversionFailed envC2fail.converterStdout
            envC2fail.converterStderr) ∧
     (convert_hf_to_ggml envC2fail "whisper-atc.bin").intermediateWritten
        = true ∧
     (convert_hf_to_ggml envC2fail "whisper-atc.bin").intermediateOnDisk
        = true) :=
  ⟨rfl, rfl, rfl, by decide,
   C2_conversion_failure envC2fail "whisper-atc.bin" dimsGood rfl rfl rfl
     (by decide)⟩

/-
C3.  One failing quantization level is skipped; the other two levels are
attempted and recorded.
-/

/-- C3: when the quantize binary exists and exactly one of the three
levels' subprocesses exits non-zero, all three levels are attempted in
order and the returned mapping holds, for each of the two surviving
levels in order, its output path and measured size — and omits the failed
level. -/
theorem C3_one_level_failure (env : QuantEnv) (bad : String)
    (hbin : env.quantizeBinaryExists = true)
    (hbad : bad ∈ quantLevels)
    (hfail : env.exitCode bad ≠ 0)
    (hok : ∀ l ∈ quantLevels, l ≠ bad → env.exitCode l = 0) :
    (quantize_model env).attempted = quantLevels ∧
    (quantize_model env).outcome
      = .ok ((quantLevels.filter (fun l => l ≠ bad)).map
          (fun l => (l, { path := quantOutputName l,
                          sizeBytes := env.sizeBytes l }))) := by
  have h8 := hok "q8_0"
  have h5 := hok "q5_0"
  have h4 := hok "q4_0"
  simp only [quantLevels] at h8 h5 h4
  simp [quantLevels] at hbad
  rcases hbad with rfl | rfl | rfl
  · have e5 : env.exitCode "q5_0" = 0 := by
      exact h5 (by simp) (by decide)
    have e4 : env.exitCode "q4_0" = 0 := by
      exact h4 (by simp) (by decide)
    simp [quantize_model, quantLevels, hbin, hfail, e5, e4]
  · have e8 : env.exitCode "q8_0" = 0 := by
      exact h8 (by simp) (by decide)
    have e4 : env.exitCode "q4_0" = 0 := by
      exact h4 (by simp) (by decide)
    simp [quantize_model, quantLevels, hbin, hfail, e8, e4]
  · have e8 : env.exitCode "q8_0" = 0 := by
      exact h8 (by simp) (by decide)
    have e5 : env.exitCode "q5_0" = 0 := by
      exact h5 (by simp) (by decide)
    simp [quantize_model, quantLevels, hbin, hfail, e8, e5]

/-- A quantization environment where only the `q5_0` subprocess fails. -/
def envC3 : QuantEnv :=
  { quantizeBinaryExists := true
    exitCode := fun l => if l = "q5_0" then 1 else 0
    sizeBytes := fun l => if l = "q8_0" then 1048576 else 524288 }

/-- C3 witness: the theorem applied to `envC3`, where just `q5_0` fails. -/
theorem C3_one_level_failure_witness :
    envC3.quantizeBinaryExists = true ∧
    "q5_0" ∈ quantLevels ∧
    envC3.exitCode "q5_0" ≠ 0 ∧
    (∀ l ∈ quantLevels, l ≠ "q5_0" → envC3.exitCode l = 0) ∧
    ((quantize_model envC3).attempted = quantLevels ∧
     (quantize_model envC3).outcome
       = .ok ((quantLevels.filter (fun l => l ≠ "q5_0")).map
           (fun l => (l, { path := quantOutputName l,
                           sizeBytes := envC3.sizeBytes l })))) :=
  ⟨rfl, by decide, by decide, by decide,
   C3_one_level_failure envC3 "q5_0" rfl (by decide) (by decide) (by decide)⟩

/-
C4.  Artifact discovery after a successful converter run.
-/

/-- C4: after a successful converter subprocess run, the result is found
by filtering the output directory for names that contain `ggml` and end
in a recognized binary extension; an empty scan is a fatal missing-output
error, and otherwise the first candidate in iteration order is selected
and renamed to the canonical output path exactly when it is not already
that path. -/
theorem C4_discovery (env : ConvertEnv) (out : String)
    (d : List (String × Int))
    (hload : env.modelLoadOk = true)
    (hdims : buildDims env.cfg = some d)
    (hscript : env.scriptExists = true)
    (hexit : env.converterExit = 0) :
    (env.outputDirListing.filter isGgmlCandidate = [] →
      (convert_hf_to_ggml env out).outcome = .error .outputMissing) ∧
    (∀ f rest, env.outputDirListing.filter isGgmlCandidate = f :: rest →
      (convert_hf_to_ggml env out).outcome = .ok out ∧
      (convert_hf_to_ggml env out).renamed
        = (if f ≠ out then some (f, out) else none)) := by
  constructor
  · intro hnone
    simp [convert_hf_to_ggml, hload, hdims, hscript, hexit, hnone]
  · intro f rest hcons
    simp [convert_hf_to_ggml, hload, hdims, hscript, hexit, hcons]

/-- C4 witness: in `convertEnvGood` the converter left `ggml-model.bin`
in the output directory; it is selected and renamed to the canonical
path. -/
theorem C4_discovery_witness :
    convertEnvGood.modelLoadOk = true ∧
    buildDims convertEnvGood.cfg = some dimsGood ∧
    convertEnvGood.scriptExists = true ∧
    convertEnvGood.converterExit = 0 ∧
    (convert_hf_to_ggml convertEnvGood "whisper-atc.bin").outcome
      = .ok "whisper-atc.bin" ∧
    (convert_hf_to_ggml convertEnvGood "whisper-atc.bin").renamed
      = some ("ggml-model.bin", "whisper-atc.bin") :=
  ⟨rfl, rfl, rfl, rfl, by
    have h := (C4_discovery convertEnvGood "whisper-atc.bin" dimsGood rfl rfl
        rfl rfl).2 "ggml-model.bin" [] (by decide)
    exact ⟨h.1, by rw [h.2]; decide⟩⟩

/-
C5.  The manifest built from a fully populated configuration.
-/

/-- C5: when every configuration attribute is present (and positive),
the conversion builds exactly the ten-key dimension manifest, in order,
with each key mapped to the corresponding configuration value. -/
theorem C5_dims_manifest (env : ConvertEnv) (out : String)
    (nm msp dm eah el vs mtp dah dl : Int)
    (hload : env.modelLoadOk = true)
    (h1 : env.cfg.num_mel_bins = some nm)
    (h2 : env.cfg.max_source_positions = some msp)
    (h3 : env.cfg.d_model = some dm)
    (h4 : env.cfg.encoder_attention_heads = some eah)
    (h5 : env.cfg.encoder_layers = some el)
    (h6 : env.cfg.vocab_size = some vs)
    (h7 : env.cfg.max_target_positions = some mtp)
    (h8 : env.cfg.decoder_attention_heads = some dah)
    (h9 : env.cfg.decoder_layers = some dl)
    (_hpos : 0 < nm ∧ 0 < msp ∧ 0 < dm ∧ 0 < eah ∧ 0 < el ∧ 0 < vs ∧
      0 < mtp ∧ 0 < dah ∧ 0 < dl) :
    (convert_hf_to_ggml env out).dimsBuilt
      = some [("n_mels", nm), ("n_audio_ctx", msp), ("n_audio_state", dm),
              ("n_audio_head", eah), ("n_audio_layer", el), ("n_vocab", vs),
              ("n_text_ctx", mtp), ("n_text_state", dm),
              ("n_text_head", dah), ("n_text_layer", dl)] := by
  have hd : buildDims env.cfg
      = some [("n_mels", nm), ("n_audio_ctx", msp), ("n_audio_state", dm),
              ("n_audio_head", eah), ("n_audio_layer", el), ("n_vocab", vs),
              ("n_text_ctx", mtp), ("n_text_state", dm),
              ("n_text_head", dah), ("n_text_layer", dl)] := by
    simp [buildDims, h1, h2, h3, h4, h5, h6, h7, h8, h9]
  unfold convert_hf_to_ggml
  rw [hd, hload]
  simp only [Bool.not_true, Bool.false_eq_true, if_false]
  split
  · rfl
  · split
    · rfl
    · split <;> rfl

/-- C5 witness: the theorem applied to `convertEnvGood`. -/
theorem C5_dims_manifest_witness :
    convertEnvGood.modelLoadOk = true ∧
    convertEnvGood.cfg.num_mel_bins = some 80 ∧
    convertEnvGood.cfg.d_model = some 384 ∧
    (0 : Int) < 80 ∧
    (convert_hf_to_ggml convertEnvGood "whisper-atc.bin").dimsBuilt
      = some [("n_mels", 80), ("n_audio_ctx", 1500), ("n_audio_state", 384),
              ("n_audio_head", 6), ("n_audio_layer", 4), ("n_vocab", 51864),
              ("n_text_ctx", 448), ("n_text_state", 384), ("n_text_head", 6),
              ("n_text_layer", 4)] :=
  ⟨rfl, rfl, rfl, by decide,
   C5_dims_manifest convertEnvGood "whisper-atc.bin" 80 1500 384 6 4 51864
     448 6 4 rfl rfl rfl rfl rfl rfl rfl rfl rfl rfl (by decide)⟩

/-
C6.  A missing quantize binary aborts quantization before any level.
-/

/-- C6: when the quantize binary is absent, `quantize_model` fails with
the missing-quantizer error before the loop: no level's subprocess is
invoked and no level appears in any result mapping. -/
theorem C6_quantizer_missing (env : QuantEnv)
    (h : env.quantizeBinaryExists = false) :
    (quantize_model env).outcome = .error .quantizerMissing ∧
    (quantize_model env).attempted = [] := by
  simp [quantize_model, h]

/-- A quantization environment with the quantize binary absent. -/
def envC6 : QuantEnv :=
  { quantizeBinaryExists := false
    exitCode := fun _ => 0
    sizeBytes := fun _ => 0 }

/-- C6 witness: the theorem applied to `envC6`. -/
theorem C6_quantizer_missing_witness :
    envC6.quantizeBinaryExists = false ∧
    ((quantize_model envC6).outcome = .error .quantizerMissing ∧
     (quantize_model envC6).attempted = []) :=
  ⟨rfl, C6_quantizer_missing envC6 rfl⟩

/-
C7 and C8.  The command-line entry point with a missing checkpoint path.
-/

/-- A `main` environment whose model checkpoint path does not exist. -/
def mainEnvMissing : MainEnv :=
  { modelPathExists := false
    provisionOk := true
    skipQuantization := false
    convertEnv := convertEnvGood
    quantEnv := envC6 }

/-- C7: when the model checkpoint path does not exist, `main` reports the
problem and returns normally — exit status 0, no exception — and neither
provisioning, nor adaptation/conversion, nor quantization is attempted. -/
theorem C7_missing_checkpoint (env : MainEnv)
    (h : env.modelPathExists = false) :
    main env
      = { outputDirCreated := true, reportedMissingModel := true,
          provisionAttempted := false, convertAttempted := false,
          quantizeAttempted := false, exitCode := 0, raised := false } := by
  simp [main, h]

/-- C7 witness: the theorem applied to `mainEnvMissing`. -/
theorem C7_missing_checkpoint_witness :
    mainEnvMissing.modelPathExists = false ∧
    main mainEnvMissing
      = { outputDirCreated := true, reportedMissingModel := true,
          provisionAttempted := false, convertAttempted := false,
          quantizeAttempted := false, exitCode := 0, raised := false } :=
  ⟨rfl, C7_missing_checkpoint mainEnvMissing rfl⟩

/-- C8: the output directory is created before the checkpoint-path
existence check, so even a run that ends early because the checkpoint
path is missing — reporting the problem and attempting no stage — leaves
the output directory created. -/
theorem C8_outdir_survives_early_return (env : MainEnv)
    (h : env.modelPathExists = false) :
    (main env).outputDirCreated = true ∧
    (main env).reportedMissingModel = true ∧
    (main env).provisionAttempted = false := by
  simp [main, h]

/-- C8 witness: the theorem applied to `mainEnvMissing`. -/
theorem C8_outdir_survives_early_return_witness :
    mainEnvMissing.modelPathExists = false ∧
    ((main mainEnvMissing).outputDirCreated = true ∧
     (main mainEnvMissing).reportedMissingModel = true ∧
     (main mainEnvMissing).provisionAttempted = false) :=
  ⟨rfl, C8_outdir_survives_early_return mainEnvMissing rfl⟩

/-
C9.  Both state keys of the manifest come from the one `d_model`
attribute.
-/

/-- C9: every dimension manifest the conversion builds maps
`n_audio_state` and `n_text_state` to the same value, namely the
configuration's `d_model`; distinct audio and text hidden widths are not
representable. -/
theorem C9_audio_state_eq_text_state (env : ConvertEnv) (out : String)
    (d : List (String × Int))
    (h : (convert_hf_to_ggml env out).dimsBuilt = some d) :
    d.lookup "n_audio_state" = d.lookup "n_text_state" ∧
    d.lookup "n_audio_state" = env.cfg.d_model := by
  have hb : buildDims env.cfg = some d := dimsBuilt_sound env out d h
  rcases env with ⟨cfg, ml, se, ce, co, cer, ol⟩
  rcases cfg with ⟨a, b, c, d', e, f, g, h', i⟩
  cases a <;> cases b <;> cases c <;> cases d' <;> cases e <;> cases f <;>
    cases g <;> cases h' <;> cases i <;>
    simp only [buildDims] at hb <;>
    first
      | exact Option.noConfusion hb
      | (injection hb with hb2; subst hb2; exact ⟨rfl, rfl⟩)

/-- C9 witness: the theorem applied to the concrete successful run. -/
theorem C9_audio_state_eq_text_state_witness :
    (convert_hf_to_ggml convertEnvGood "whisper-atc.bin").dimsBuilt
      = some dimsGood ∧
    (dimsGood.lookup "n_audio_state" = dimsGood.lookup "n_text_state" ∧
     dimsGood.lookup "n_audio_state" = convertEnvGood.cfg.d_model) :=
  ⟨rfl, C9_audio_state_eq_text_state convertEnvGood "whisper-atc.bin"
    dimsGood rfl⟩

/-
C10.  No pipeline deliverable matches the discovery predicate.
-/

/-- C10: none of the file names the pipeline places in the output
directory (`whisper-atc.bin` and the three `whisper-atc-<level>.bin`
quantized outputs) contains the marker substring `ggml`, so the
artifact-discovery scan of a later conversion run filters all of them
out and never selects a previous run's deliverable. -/
theorem C10_artifacts_never_rediscovered :
    (∀ n ∈ pipelineArtifactNames, charsContain "ggml".data n.data = false) ∧
    pipelineArtifactNames.filter isGgmlCandidate = [] := by
  decide

end ConvertToGgml
